import Mathlib

/-!
# VPC CIDR block task (`upup/pkg/fi/cloudup/awstasks/vpccidrblock.go`)

A shallow embedding of the `VPCCIDRBlock` task: discovery (`Find`), validation
(`CheckChanges`) and the live-apply renderer (`RenderAWS`).

The record declares its CIDR field as `CIDRBlocks *[]string`, and `Find` writes it so.
The renderers still use it as a single `*string`: `RenderAWS` reads `changes.CIDRBlock`,
a field the record does not declare, and `RenderAWS`, `RenderTerraform` and
`RenderCloudformation` store `e.CIDRBlocks` where a `*string` is required. These
expressions have no type under the declarations of the file. `RenderAWS` is embedded
with each of them as a parameter (`Reading`); the two document renderers, whose record is
built from such an expression, are not embedded.

Conventions of the embedding.

* A Go pointer field is an `Option`; `nil` is `none`.
* A function that talks to the provider returns an
  `Outcome`: the calls it issued, in order, and how it ended.
* Dereferencing a nil pointer ends the function with `Result.panic`; calls issued
  before that point stay in the trace.
* The receiver `e` is a value: the task on which the method is invoked exists.
  The actual state `a` and the delta `changes` are pointers the code tests against
  `nil`, hence `Option`s.
* The debugging `fmt.Printf` in `Find` writes to standard output only and is left out.
-/

set_option autoImplicit false

namespace awstasks

/-! ## Helpers of package `fi` -/

/-- Modelled from the spec: `fi.Lifecycle` is declared outside this file; the spec lists
its values. The task only copies the field. -/
inductive Lifecycle where
  | Sync
  | ExistsAndWarnIfChanges
  | ExistsAndValidates
  | WarnIfInsufficientAccess
  deriving DecidableEq, Repr

/-- Modelled from the spec: `fi.StringValue` is declared outside this file; it reads a
string pointer, an unset pointer reading as the empty string. -/
def StringValue : Option String → String
  | none => ""
  | some s => s

/-- Modelled from the spec: `fi.BoolValue` is declared outside this file; it reads a
boolean pointer, an unset pointer reading as false (`Shared` defaults to false). -/
def BoolValue : Option Bool → Bool
  | none => false
  | some b => b

/-! ## Data model -/

/-- Modelled from the spec: the parent task `VPC` is declared outside this file; this file
reads and writes only its `ID`, the identifier that stays unset until the parent exists. -/
structure VPC where
  ID : Option String
  deriving DecidableEq, Repr

/-- The task record, used for desired state, actual state and delta alike. -/
structure VPCCIDRBlock where
  Name : Option String
  Lifecycle : Option Lifecycle
  VPC : Option VPC
  CIDRBlocks : Option (List String)
  Shared : Option Bool
  deriving DecidableEq, Repr

/-! ## Provider interface (`ec2`) -/

/-- A tag filter as built by `cloud.BuildFilters`. -/
structure Filter where
  Name : String
  Values : List String
  deriving DecidableEq, Repr

/-- The request of `DescribeVpcs`: by identifier or by filter. -/
structure DescribeVpcsInput where
  VpcIds : List (Option String)
  Filters : List Filter
  deriving DecidableEq, Repr

/-- The state of one association; `Find` dereferences `State`. -/
structure VpcCidrBlockState where
  State : Option String
  deriving DecidableEq, Repr

/-- One CIDR block association of a parent record; `Find` dereferences `CidrBlock`. -/
structure VpcCidrBlockAssociation where
  CidrBlock : Option String
  CidrBlockState : VpcCidrBlockState
  deriving DecidableEq, Repr

/-- A parent record of the response. -/
structure Vpc where
  CidrBlockAssociationSet : List VpcCidrBlockAssociation
  VpcId : Option String
  deriving DecidableEq, Repr

/-- The response of `DescribeVpcs`. -/
structure DescribeVpcsOutput where
  Vpcs : List Vpc
  deriving DecidableEq, Repr

/-- The request of `AssociateVpcCidrBlock`; `CidrBlock` is a single string pointer. -/
structure AssociateVpcCidrBlockInput where
  VpcId : Option String
  CidrBlock : Option String
  deriving DecidableEq, Repr

/-- The provider as the task sees it. `DescribeVpcs` answers with an error or with a
response pointer (which `Find` tests against `nil`); of `AssociateVpcCidrBlock` only the
error is read. An error is its message. -/
structure AWSCloud where
  BuildFilters : Option String → List Filter
  DescribeVpcs : DescribeVpcsInput → Except String (Option DescribeVpcsOutput)
  AssociateVpcCidrBlock : AssociateVpcCidrBlockInput → Option String

/-- A call issued to the provider. -/
inductive Call where
  | DescribeVpcs (request : DescribeVpcsInput)
  | AssociateVpcCidrBlock (request : AssociateVpcCidrBlockInput)
  deriving DecidableEq, Repr

/-! ## Errors and outcomes -/

/-- The errors the task returns. `RequiredField` and `CannotChangeField` stand for the
values of `fi.RequiredField` and `fi.CannotChangeField`; the others for the `fmt.Errorf`
values of this file, with the formatted argument as payload. -/
inductive Error where
  | RequiredField (key : String)
  | CannotChangeField (key : String)
  | ListingVPCs (cause : String)
  | CIDRBlockNotFound (cidr : String)
  | AssociatingCIDR (cause : String)
  deriving DecidableEq, Repr

/-- How a call of a Go function ends: it returns a value, returns an error, or panics on
a nil pointer. -/
inductive Result (α : Type) where
  | ok (value : α)
  | error (err : Error)
  | panic
  deriving DecidableEq, Repr

/-- The calls a function issued (of kind `κ`), in order, and how it ended. -/
structure Outcome (κ α : Type) where
  calls : List κ
  result : Result α
  deriving DecidableEq, Repr

/-! ## Find -/

/-- The loop of `Find` over the associations of the first parent record: the first
association whose state is `"associated"` contributes its CIDR block and ends the loop.
The value `none` is the panic of dereferencing a nil `State` or `CidrBlock`. -/
def associatedcidrBlocks : List VpcCidrBlockAssociation → Option (List String)
  | [] => some []
  | cidrBlockAssociationSet :: rest =>
    match cidrBlockAssociationSet.CidrBlockState.State with
    | none => none
    | some state =>
      if state = "associated" then
        match cidrBlockAssociationSet.CidrBlock with
        | none => none
        | some cidrblock => some [cidrblock]
      else associatedcidrBlocks rest

/-- `VPCCIDRBlock.Find`. The value `ok none` is "does not exist". -/
def Find (cloud : AWSCloud) (e : VPCCIDRBlock) : Outcome Call (Option VPCCIDRBlock) :=
  match e.VPC with
  | none => ⟨[], .panic⟩
  | some vpc =>
    let vpcID := vpc.ID
    let request : DescribeVpcsInput :=
      if StringValue vpcID ≠ "" then
        { VpcIds := [vpcID], Filters := [] }
      else
        { VpcIds := [], Filters := cloud.BuildFilters e.Name }
    match cloud.DescribeVpcs request with
    | .error err => ⟨[.DescribeVpcs request], .error (.ListingVPCs err)⟩
    | .ok none => ⟨[.DescribeVpcs request], .ok none⟩
    | .ok (some response) =>
      match response.Vpcs with
      | [] => ⟨[.DescribeVpcs request], .ok none⟩
      | first :: _ =>
        if vpcID = none then ⟨[.DescribeVpcs request], .ok none⟩
        else
          match associatedcidrBlocks first.CidrBlockAssociationSet with
          | none => ⟨[.DescribeVpcs request], .panic⟩
          | some blocks =>
            ⟨[.DescribeVpcs request],
              .ok (some
                { Name := e.Name
                  Lifecycle := e.Lifecycle
                  VPC := some { ID := first.VpcId }
                  CIDRBlocks := some blocks
                  Shared := e.Shared })⟩

/-! ## CheckChanges -/

/-- `VPCCIDRBlock.CheckChanges`; `none` is the nil error. -/
def CheckChanges (a : Option VPCCIDRBlock) (e : VPCCIDRBlock)
    (changes : Option VPCCIDRBlock) : Option Error :=
  if e.VPC = none then some (.RequiredField "VPC")
  else
    match a, changes with
    | some _, some c => if c.VPC ≠ none then some (.CannotChangeField "VPC") else none
    | _, _ => none

/-! ## RenderAWS -/

/-- The two expressions of `RenderAWS` that the declarations of the file leave without a
type. `CIDRBlock` is the field read by `changes.CIDRBlock` (line 120), which the record
does not declare. `asString` is `e.CIDRBlocks`, a `*[]string`, where a `*string` is
required: the argument of `fi.StringValue` (line 116) and the `CidrBlock` of the request
(line 123). The source does not fix what they denote; a statement about `RenderAWS` is
made for every reading. -/
structure Reading where
  CIDRBlock : VPCCIDRBlock → Option String
  asString : Option (List String) → Option String

/-- `VPCCIDRBlock.RenderAWS`. The target contributes its cloud. The nested tests
`if shared` and `if a == nil` of the source are the one test `shared && a.isNone`. -/
def RenderAWS (rd : Reading) (cloud : AWSCloud) (a : Option VPCCIDRBlock)
    (e : VPCCIDRBlock) (changes : Option VPCCIDRBlock) : Outcome Call Unit :=
  let shared := BoolValue e.Shared
  if shared && a.isNone then
    ⟨[], .error (.CIDRBlockNotFound (StringValue (rd.asString e.CIDRBlocks)))⟩
  else
    match changes with
    | none => ⟨[], .panic⟩
    | some c =>
      if rd.CIDRBlock c ≠ none then
        match e.VPC with
        | none => ⟨[], .panic⟩
        | some vpc =>
          let request : AssociateVpcCidrBlockInput :=
            { VpcId := vpc.ID, CidrBlock := rd.asString e.CIDRBlocks }
          match cloud.AssociateVpcCidrBlock request with
          | some err => ⟨[.AssociateVpcCidrBlock request], .error (.AssociatingCIDR err)⟩
          | none => ⟨[.AssociateVpcCidrBlock request], .ok ()⟩
      else ⟨[], .ok ()⟩

/-! ## The pass -/

/-- Modelled from the spec: the driver `fi.DefaultDeltaRunMethod` is declared outside this
file. The spec fixes its order: discover the actual state, compute the delta, validate,
then render once; a failure of one phase ends the pass. The delta computation and the
renderer of the active target are parameters. -/
def DefaultDeltaRunMethod {κ : Type}
    (find : VPCCIDRBlock → Outcome κ (Option VPCCIDRBlock))
    (diff : Option VPCCIDRBlock → VPCCIDRBlock → Option VPCCIDRBlock)
    (check : Option VPCCIDRBlock → VPCCIDRBlock → Option VPCCIDRBlock → Option Error)
    (render : Option VPCCIDRBlock → VPCCIDRBlock → Option VPCCIDRBlock → Outcome κ Unit)
    (e : VPCCIDRBlock) : Outcome κ Unit :=
  match find e with
  | ⟨calls, .panic⟩ => ⟨calls, .panic⟩
  | ⟨calls, .error err⟩ => ⟨calls, .error err⟩
  | ⟨calls, .ok a⟩ =>
    let changes := diff a e
    match check a e changes with
    | some err => ⟨calls, .error err⟩
    | none =>
      let rendered := render a e changes
      ⟨calls ++ rendered.calls, rendered.result⟩

/-- `VPCCIDRBlock.Run` on the live-apply target. -/
def Run (rd : Reading) (cloud : AWSCloud)
    (diff : Option VPCCIDRBlock → VPCCIDRBlock → Option VPCCIDRBlock)
    (e : VPCCIDRBlock) : Outcome Call Unit :=
  DefaultDeltaRunMethod (Find cloud) diff CheckChanges (RenderAWS rd cloud) e

/-! ## Sample inputs -/

/-- The association record of a (CIDR block, state) pair. -/
def association (p : String × String) : VpcCidrBlockAssociation :=
  { CidrBlock := some p.1, CidrBlockState := { State := some p.2 } }

/-- A provider that answers every query with `response` and accepts every association. -/
def sampleCloud (response : Option DescribeVpcsOutput) : AWSCloud :=
  { BuildFilters := fun name => [{ Name := "tag:Name", Values := [StringValue name] }]
    DescribeVpcs := fun _ => .ok response
    AssociateVpcCidrBlock := fun _ => none }

/-- A desired state with parent identifier `id`. -/
def sampleDesired (id : Option String) (shared : Option Bool) : VPCCIDRBlock :=
  { Name := some "1abc"
    Lifecycle := some .Sync
    VPC := some { ID := id }
    CIDRBlocks := some ["10.1.0.0/16"]
    Shared := shared }

/-- A parent record with the two associations of the discovery example. -/
def sampleVpc : Vpc :=
  { CidrBlockAssociationSet :=
      [("10.0.0.0/16", "disassociated"), ("10.1.0.0/16", "associated")].map association
    VpcId := some "vpc-1" }

/-- A parent record on which another block than the desired one is associated. -/
def otherBlockVpc : Vpc :=
  { CidrBlockAssociationSet := [association ("10.0.0.0/16", "associated")]
    VpcId := some "vpc-1" }

/-- The delta between the desired block `10.1.0.0/16` and an actual state that tracks
another block: the CIDR field alone is set. -/
def cidrDelta : VPCCIDRBlock :=
  { Name := none, Lifecycle := none, VPC := none, CIDRBlocks := some ["10.1.0.0/16"],
    Shared := none }

/-- One reading among others: the first block of the list. -/
def firstBlock : Reading :=
  { CIDRBlock := fun c => c.CIDRBlocks.bind List.head?
    asString := fun blocks => blocks.bind List.head? }

/-! ## CheckChanges -/

/-- C1: `CheckChanges` returns the required-field error for "VPC" exactly when the desired
state has no parent reference, whatever the actual state and the delta are. -/
theorem CheckChanges_requiredField_iff (a : Option VPCCIDRBlock) (e : VPCCIDRBlock)
    (changes : Option VPCCIDRBlock) :
    CheckChanges a e changes = some (.RequiredField "VPC") ↔ e.VPC = none := by
  unfold CheckChanges
  by_cases h : e.VPC = none
  · simp [h]
  · simp only [h, if_false, iff_false]
    cases a <;> cases changes <;> simp

/-- C2: with the parent reference of the desired state set, `CheckChanges` returns the
field-immutable error for "VPC" exactly when the actual state exists and the delta carries
a parent change, and returns no error in every other case; no other field is read. -/
theorem CheckChanges_cannotChange_iff (a : Option VPCCIDRBlock) (e : VPCCIDRBlock)
    (changes : Option VPCCIDRBlock) (v : VPC) (h : e.VPC = some v) :
    (CheckChanges a e changes = some (.CannotChangeField "VPC") ↔
        (a ≠ none ∧ ∃ c, changes = some c ∧ c.VPC ≠ none)) ∧
      (¬ (a ≠ none ∧ ∃ c, changes = some c ∧ c.VPC ≠ none) →
        CheckChanges a e changes = none) := by
  unfold CheckChanges
  simp only [h]
  cases a <;> cases changes <;> simp

/-- Witness of C2: an existing actual state and a delta that moves the parent. -/
theorem CheckChanges_cannotChange_iff_witness :
    (sampleDesired (some "vpc-1") none).VPC = some { ID := some "vpc-1" } ∧
      CheckChanges (some (sampleDesired (some "vpc-2") none))
        (sampleDesired (some "vpc-1") none)
        (some { Name := none, Lifecycle := none, VPC := some { ID := some "vpc-1" },
                CIDRBlocks := none, Shared := none })
        = some (.CannotChangeField "VPC") :=
  ⟨rfl,
    (CheckChanges_cannotChange_iff _ _ _ _ rfl).1.2
      ⟨by simp, _, rfl, by simp⟩⟩

/-! ## RenderAWS -/

/-- C5: for a shared resource whose actual state is absent, `RenderAWS` returns the
not-found error and issues no provider call, whatever the delta carries (a nil delta
included) and under every reading of the CIDR expressions. -/
theorem RenderAWS_shared_absent (rd : Reading) (cloud : AWSCloud) (e : VPCCIDRBlock)
    (changes : Option VPCCIDRBlock) (h : e.Shared = some true) :
    RenderAWS rd cloud none e changes
      = ⟨[], .error (.CIDRBlockNotFound (StringValue (rd.asString e.CIDRBlocks)))⟩ := by
  simp [RenderAWS, BoolValue, h]

/-- Witness of C5: a shared desired state, no actual state, a delta with a CIDR change. -/
theorem RenderAWS_shared_absent_witness :
    (sampleDesired (some "vpc-1") (some true)).Shared = some true ∧
      RenderAWS firstBlock (sampleCloud none) none (sampleDesired (some "vpc-1") (some true))
        (some cidrDelta)
        = ⟨[], .error (.CIDRBlockNotFound "10.1.0.0/16")⟩ :=
  ⟨rfl, RenderAWS_shared_absent firstBlock _ _ _ rfl⟩

/-! ## Find -/

/-- On associations given as (CIDR block, state) pairs, the loop of `Find` returns the
CIDR block of the first pair whose state is `"associated"`, and nothing when there is no
such pair. -/
theorem associatedcidrBlocks_map (assocs : List (String × String)) :
    associatedcidrBlocks (assocs.map association)
      = some (match assocs.find? (fun p => decide (p.2 = "associated")) with
          | some p => [p.1]
          | none => []) := by
  induction assocs with
  | nil => rfl
  | cons p rest ih =>
    by_cases hp : p.2 = "associated"
    · simp [associatedcidrBlocks, association, hp, List.find?]
    · simp [associatedcidrBlocks, association, hp, List.find?, ih]

/-- C3: for a desired state whose parent identifier `id` is non-empty and a successful
response whose first parent record carries the associations `assocs`, `Find` returns an
actual state whose `CIDRBlocks` holds the CIDR block of the first association, in the
order of the response, whose state is `"associated"`, or is empty when there is none;
other associations and other parent records are not read. -/
theorem Find_tracks_first_associated (cloud : AWSCloud) (e : VPCCIDRBlock) (id : String)
    (assocs : List (String × String)) (vpcId : Option String) (others : List Vpc)
    (hvpc : e.VPC = some { ID := some id }) (hid : id ≠ "")
    (hresp : cloud.DescribeVpcs { VpcIds := [some id], Filters := [] }
      = .ok (some { Vpcs :=
          { CidrBlockAssociationSet := assocs.map association, VpcId := vpcId }
            :: others })) :
    Find cloud e =
      ⟨[.DescribeVpcs { VpcIds := [some id], Filters := [] }],
        .ok (some
          { Name := e.Name
            Lifecycle := e.Lifecycle
            VPC := some { ID := vpcId }
            CIDRBlocks :=
              some (match assocs.find? (fun p => decide (p.2 = "associated")) with
                | some p => [p.1]
                | none => [])
            Shared := e.Shared })⟩ := by
  simp only [Find, hvpc, StringValue, ne_eq, hid, not_false_eq_true, if_true, hresp,
    associatedcidrBlocks_map]
  simp

/-- Witness of C3: the associations `("10.0.0.0/16", "disassociated")`,
`("10.1.0.0/16", "associated")` give the tracked value `"10.1.0.0/16"`. -/
theorem Find_tracks_first_associated_witness :
    (sampleDesired (some "vpc-1") none).VPC = some { ID := some "vpc-1" } ∧
      "vpc-1" ≠ "" ∧
      Find (sampleCloud (some { Vpcs := [sampleVpc] })) (sampleDesired (some "vpc-1") none)
        = ⟨[.DescribeVpcs { VpcIds := [some "vpc-1"], Filters := [] }],
            .ok (some
              { Name := some "1abc"
                Lifecycle := some .Sync
                VPC := some { ID := some "vpc-1" }
                CIDRBlocks := some ["10.1.0.0/16"]
                Shared := none })⟩ :=
  ⟨rfl, by decide,
    Find_tracks_first_associated (sampleCloud (some { Vpcs := [sampleVpc] }))
      (sampleDesired (some "vpc-1") none) "vpc-1"
      [("10.0.0.0/16", "disassociated"), ("10.1.0.0/16", "associated")] (some "vpc-1") []
      rfl (by decide) rfl⟩

/-- Empty responses: with a parent reference set, a successful response
that is nil or has no parent record makes `Find` return "does not exist". -/
theorem Find_no_record (cloud : AWSCloud) (e : VPCCIDRBlock) (v : VPC)
    (hvpc : e.VPC = some v)
    (hresp : ∀ request, cloud.DescribeVpcs request = .ok none ∨
      cloud.DescribeVpcs request = .ok (some { Vpcs := [] })) :
    (Find cloud e).result = .ok none := by
  simp only [Find, hvpc]
  by_cases h : StringValue v.ID ≠ ""
  · rw [if_pos h]
    rcases hresp { VpcIds := [v.ID], Filters := [] } with hr | hr <;> simp [hr]
  · rw [if_neg h]
    rcases hresp { VpcIds := [], Filters := cloud.BuildFilters e.Name } with hr | hr <;>
      simp [hr]

/-- Nil identifier: with a parent reference whose `ID` is nil, every
successful response makes `Find` return "does not exist". -/
theorem Find_nil_ID (cloud : AWSCloud) (e : VPCCIDRBlock)
    (response : Option DescribeVpcsOutput) (hvpc : e.VPC = some { ID := none })
    (hresp : cloud.DescribeVpcs { VpcIds := [], Filters := cloud.BuildFilters e.Name }
      = .ok response) :
    Find cloud e =
      ⟨[.DescribeVpcs { VpcIds := [], Filters := cloud.BuildFilters e.Name }],
        .ok none⟩ := by
  simp only [Find, hvpc, StringValue, ne_eq, not_true_eq_false, if_false, hresp]
  cases response with
  | none => rfl
  | some r =>
    show (match r.Vpcs with | [] => _ | _ :: _ => _) = _
    split <;> rfl

/-- C4 at an empty-string identifier: the query is made by the Name-derived filters, a
parent record comes back, and `Find` returns an actual state built from that record
instead of "does not exist". -/
theorem Find_empty_ID_reports_actual :
    Find (sampleCloud (some { Vpcs := [sampleVpc] })) (sampleDesired (some "") none)
      = ⟨[.DescribeVpcs
            { VpcIds := [], Filters := [{ Name := "tag:Name", Values := ["1abc"] }] }],
          .ok (some
            { Name := some "1abc"
              Lifecycle := some .Sync
              VPC := some { ID := some "vpc-1" }
              CIDRBlocks := some ["10.1.0.0/16"]
              Shared := none })⟩ := by
  decide

/-- C9 at an unset parent reference: `Find` dereferences the parent before any call and
ends in a nil-pointer panic, with no provider call issued. -/
theorem Find_unset_parent_panics (cloud : AWSCloud) (name : Option String)
    (lifecycle : Option Lifecycle) (cidrBlocks : Option (List String))
    (shared : Option Bool) :
    Find cloud
        { Name := name, Lifecycle := lifecycle, VPC := none, CIDRBlocks := cidrBlocks,
          Shared := shared }
      = ⟨[], .panic⟩ :=
  rfl

/-- A pass on a desired state without parent reference ends in the panic of `Find`; it
does not reach `CheckChanges`. -/
theorem Run_unset_parent_panics (rd : Reading) (cloud : AWSCloud)
    (diff : Option VPCCIDRBlock → VPCCIDRBlock → Option VPCCIDRBlock)
    (e : VPCCIDRBlock) (h : e.VPC = none) :
    Run rd cloud diff e = ⟨[], .panic⟩ := by
  simp [Run, DefaultDeltaRunMethod, Find, h]

/-! ## Shared resource whose block is not associated -/

/-- C10 at a shared desired state whose block `10.1.0.0/16` is not associated while the
parent `vpc-1` carries `10.0.0.0/16`: `Find` returns an actual state (tracking the other
block), so the shared branch of `RenderAWS`, which tests only that the actual state
exists, lets the call go on to the mutation step. Under every reading of the CIDR
expressions the result is not the not-found error, and an `AssociateVpcCidrBlock` call for
`vpc-1` is issued as soon as the CIDR field of the delta reads as set. -/
theorem RenderAWS_shared_block_missing_associates :
    Find (sampleCloud (some { Vpcs := [otherBlockVpc] }))
        (sampleDesired (some "vpc-1") (some true))
      = ⟨[.DescribeVpcs { VpcIds := [some "vpc-1"], Filters := [] }],
          .ok (some
            { Name := some "1abc"
              Lifecycle := some .Sync
              VPC := some { ID := some "vpc-1" }
              CIDRBlocks := some ["10.0.0.0/16"]
              Shared := some true })⟩ ∧
      ∀ rd : Reading,
        RenderAWS rd (sampleCloud (some { Vpcs := [otherBlockVpc] }))
            (some
              { Name := some "1abc"
                Lifecycle := some .Sync
                VPC := some { ID := some "vpc-1" }
                CIDRBlocks := some ["10.0.0.0/16"]
                Shared := some true })
            (sampleDesired (some "vpc-1") (some true)) (some cidrDelta)
          = if rd.CIDRBlock cidrDelta = none then ⟨[], .ok ()⟩
            else
              ⟨[.AssociateVpcCidrBlock
                  { VpcId := some "vpc-1"
                    CidrBlock := rd.asString (some ["10.1.0.0/16"]) }],
                .ok ()⟩ := by
  refine ⟨by decide, fun rd => ?_⟩
  by_cases h : rd.CIDRBlock cidrDelta = none <;>
    simp [RenderAWS, BoolValue, sampleDesired, sampleCloud, h]

end awstasks
